import Mathlib

/-!
Shallow embedding of `franka_gazebo::FrankaHWSim`
(`src/franka_gazebo/src/franka_hw_sim.cpp`) and proofs about its
joint-state synthesis and command pipeline.

Doubles are modelled as exact rationals extended with a NaN element
(type `D`); machine rounding is not modelled, but NaN propagation and
NaN comparisons follow IEEE semantics (any comparison with NaN is
false).  Fallible C++ paths are modelled explicitly: a thrown
exception that a caller catches becomes an `Except`/`Option` error
value, an uncaught exception or undefined behaviour (null-pointer
dereference, out-of-range `operator[]`) becomes `none` of an outer
`Option`.
-/

/-- A C++ `double` value: either NaN or an exact numeric value. -/
inductive D where
  | nan : D
  | val : ℚ → D
deriving DecidableEq

instance : Inhabited D := ⟨D.val 0⟩

/-- Addition on doubles: NaN absorbs. -/
def D.add : D → D → D
  | D.val a, D.val b => D.val (a + b)
  | _, _ => D.nan

/-- Subtraction on doubles: NaN absorbs. -/
def D.sub : D → D → D
  | D.val a, D.val b => D.val (a - b)
  | _, _ => D.nan

/-- Absolute value on doubles. -/
def D.abs : D → D
  | D.nan => D.nan
  | D.val a => D.val |a|

/-- The `std::isnan` test. -/
def D.isNaN : D → Bool
  | D.nan => true
  | D.val _ => false

/-- Strict comparison `d > q` of a double against a rational threshold;
any comparison involving NaN is false, as in IEEE arithmetic. -/
def D.gtQ : D → ℚ → Bool
  | D.nan, _ => false
  | D.val a, q => decide (q < a)

/-- Per-joint record `franka_gazebo::Joint`: kinematic state, the last
commanded effort and the contact/collision thresholds.  The bound Gazebo
handle is external and not part of the record. -/
structure Joint where
  name : String
  utype : Nat
  axis : ℚ × ℚ × ℚ
  position : D
  velocity : D
  effort : D
  command : D
  acceleration : D
  jerk : D
  contact_threshold : ℚ
  collision_threshold : ℚ
deriving DecidableEq

instance : Inhabited Joint :=
  ⟨{ name := "", utype := 0, axis := (0, 0, 0), position := D.val 0, velocity := D.val 0,
     effort := D.val 0, command := D.val 0, acceleration := D.val 0, jerk := D.val 0,
     contact_threshold := 0, collision_threshold := 0 }⟩

/-- Modelled from the spec: `franka_gazebo::Joint::isInContact` (defined in
`franka_gazebo/src/joint.cpp`, which is not under `src/`).  A joint is in
contact when the magnitude of (effort − last commanded effort) exceeds
its contact threshold. -/
def Joint.isInContact (j : Joint) : Bool :=
  (D.abs (D.sub j.effort j.command)).gtQ j.contact_threshold

/-- Modelled from the spec: `franka_gazebo::Joint::isInCollision` (defined in
`franka_gazebo/src/joint.cpp`, which is not under `src/`).  A joint is in
collision when the magnitude of (effort − last commanded effort) exceeds
its collision threshold. -/
def Joint.isInCollision (j : Joint) : Bool :=
  (D.abs (D.sub j.effort j.command)).gtQ j.collision_threshold

/-- The `joints_` member: a `std::map<std::string, std::shared_ptr<Joint>>`,
modelled as an association list whose values may be null (`none`), since
`operator[]` value-initializes a null `shared_ptr` for an absent key. -/
abbrev JointMap := List (String × Option Joint)

/-- `std::map::find`-style lookup: `none` when the key is absent. -/
def mapFind : JointMap → String → Option (Option Joint)
  | [], _ => none
  | (k, v) :: rest, key => if k = key then some v else mapFind rest key

/-- `std::map::emplace`: inserts only when the key is absent. -/
def mapEmplace (m : JointMap) (k : String) (j : Joint) : JointMap :=
  match mapFind m k with
  | some _ => m
  | none => m ++ [(k, some j)]

/-- `std::map::operator[]`: returns the stored pointer, inserting a null
pointer first when the key is absent. -/
def mapBracket (m : JointMap) (k : String) : Option Joint × JointMap :=
  match mapFind m k with
  | some v => (v, m)
  | none => (none, m ++ [(k, none)])

/-- Overwrite the value stored at an existing key. -/
def mapSet : JointMap → String → Option Joint → JointMap
  | [], _, _ => []
  | (k, v) :: rest, key, nv =>
    if k = key then (key, nv) :: rest else (k, v) :: mapSet rest key nv

/-- The joint name `"<arm_id>_joint<i>"` constructed at several points in
the source. -/
def jointName (armId : String) (i : Nat) : String :=
  armId ++ "_joint" ++ toString i

/-- `std::stoi` on the suffix of a joint name (base 10): skip leading
whitespace, accept an optional sign and then a non-empty run of decimal
digits; `none` models the `std::invalid_argument` it throws when no
digits are found. -/
def cppDigits (cs : List Char) : Option Nat :=
  let ds := cs.takeWhile Char.isDigit
  if ds = [] then none
  else some (ds.foldl (fun a c => a * 10 + (c.toNat - 48)) 0)

/-- The C whitespace class used by `std::stoi`. -/
def cppIsSpace (c : Char) : Bool :=
  c = ' ' || c = '\t' || c = '\n' || c = '\x0b' || c = '\x0c' || c = '\r'

/-- Integer parse with `std::stoi` semantics (prefix parse, may ignore
trailing garbage). -/
def cppStoi (s : String) : Option Int :=
  match s.data.dropWhile cppIsSpace with
  | '+' :: rest => (cppDigits rest).map Int.ofNat
  | '-' :: rest => (cppDigits rest).map (fun n => -(n : Int))
  | rest => (cppDigits rest).map Int.ofNat

/-- The check `name.rfind(pfx, 0) != npos`, i.e. `name` starts with
`pfx` (character-level; the joint names are ASCII). -/
def strStartsWith (name pfx : String) : Bool :=
  pfx.data.isPrefixOf name.data

/-- `name.substr(n)`: drop the first `n` characters (character-level;
the joint names are ASCII, so character and byte counts agree). -/
def strDrop (name : String) (n : Nat) : String :=
  String.mk (name.data.drop n)

/-- One iteration of the `writeSim` loop body up to the NaN check: the
effective command for a joint.  A name starting with `"<arm_id>_joint"`
gets `command + g.at(stoi(suffix) - 1)`; other names keep the raw
command.  `none` models an uncaught exception: `std::invalid_argument`
from `stoi` or `std::out_of_range` from `std::array::at`. -/
def effectiveCommand (armId : String) (g : Fin 7 → D) (name : String) (j : Joint) : Option D :=
  let pfx := armId ++ "_joint"
  if strStartsWith name pfx then
    match cppStoi (strDrop name pfx.length) with
    | none => none
    | some n =>
      if h : 0 ≤ n - 1 ∧ n - 1 < 7 then
        some (D.add j.command (g ⟨(n - 1).toNat, by omega⟩))
      else none
  else some j.command

/-- Observable effect of `writeSim` on one joint: either a
`SetForce(0, command)` call or a skip with the NaN warning
(`ROS_WARN_STREAM_NAMED`). -/
inductive WriteOutcome where
  | wrote (name : String) (force : D)
  | skippedNaN (name : String)
deriving DecidableEq

/-- The `writeSim` loop over the joint map.  Returns the per-joint
outcomes performed so far and whether the loop ran to completion;
`false` means it was aborted by an uncaught exception or a null-pointer
dereference, leaving the remaining joints unwritten. -/
def writeSimGo (armId : String) (g : Fin 7 → D) : JointMap → List WriteOutcome × Bool
  | [] => ([], true)
  | (name, jo) :: rest =>
    match jo with
    | none => ([], false)
    | some j =>
      match effectiveCommand armId g name j with
      | none => ([], false)
      | some c =>
        if c.isNaN then
          let r := writeSimGo armId g rest
          (WriteOutcome.skippedNaN name :: r.1, r.2)
        else
          let r := writeSimGo armId g rest
          (WriteOutcome.wrote name c :: r.1, r.2)

/-- Column-major view of a flattened 4×4 matrix, matching
`Eigen::Matrix4d`'s default storage order used in `readParameters`. -/
def colMajor4 (a : Fin 16 → ℚ) : Matrix (Fin 4) (Fin 4) ℚ :=
  fun r c => a ⟨c.1 * 4 + r.1, by omega⟩

/-- Flatten a 4×4 matrix back to column-major storage. -/
def flatten4 (M : Matrix (Fin 4) (Fin 4) ℚ) : Fin 16 → ℚ :=
  fun k => M ⟨k.1 % 4, by omega⟩ ⟨k.1 / 4, by omega⟩

/-- Column-major view of a flattened 3×3 matrix (`Eigen::Matrix3d`). -/
def colMajor3 (a : Fin 9 → ℚ) : Matrix (Fin 3) (Fin 3) ℚ :=
  fun r c => a ⟨c.1 * 3 + r.1, by omega⟩

/-- Flatten a 3×3 matrix back to column-major storage. -/
def flatten3 (M : Matrix (Fin 3) (Fin 3) ℚ) : Fin 9 → ℚ :=
  fun k => M ⟨k.1 % 3, by omega⟩ ⟨k.1 / 3, by omega⟩

/-- Modelled from the spec: `shiftInertiaTensor` (declared in the
`franka_gazebo` headers, not under `src/`): the parallel-axis shift of an
inertia tensor by mass `m` and center-of-mass offset `p`,
`I + m * ((p·p) Id − p pᵀ)`. -/
def shiftInertiaTensor (I : Matrix (Fin 3) (Fin 3) ℚ) (m : ℚ) (p : Fin 3 → ℚ) :
    Matrix (Fin 3) (Fin 3) ℚ :=
  I + m • ((p 0 * p 0 + p 1 * p 1 + p 2 * p 2) • (1 : Matrix (Fin 3) (Fin 3) ℚ) -
    Matrix.of (fun i j => p i * p j))

/-- The `franka::RobotState` structure (the fields this component touches).
Per-cycle joint arrays are doubles (`D`); calibration fields are set from
parsed parameters and kept as exact rationals. -/
structure RobotState where
  q : Fin 7 → D
  dq : Fin 7 → D
  tau_J : Fin 7 → D
  dtau_J : Fin 7 → D
  q_d : Fin 7 → D
  dq_d : Fin 7 → D
  ddq_d : Fin 7 → D
  tau_J_d : Fin 7 → D
  theta : Fin 7 → D
  dtheta : Fin 7 → D
  tau_ext_hat_filtered : Fin 7 → D
  joint_contact : Fin 7 → D
  joint_collision : Fin 7 → D
  m_ee : ℚ
  m_load : ℚ
  m_total : ℚ
  I_ee : Fin 9 → ℚ
  I_load : Fin 9 → ℚ
  I_total : Fin 9 → ℚ
  F_x_Cload : Fin 3 → ℚ
  F_T_NE : Fin 16 → ℚ
  NE_T_EE : Fin 16 → ℚ
  EE_T_K : Fin 16 → ℚ
  F_T_EE : Fin 16 → ℚ
  O_T_EE : Fin 16 → D
  control_command_success_rate : ℚ
  time : ℕ

/-- Default-initialized robot state (all zeros), as `franka::RobotState`
value-initializes. -/
def RobotState.zero : RobotState :=
  { q := fun _ => D.val 0, dq := fun _ => D.val 0, tau_J := fun _ => D.val 0,
    dtau_J := fun _ => D.val 0, q_d := fun _ => D.val 0, dq_d := fun _ => D.val 0,
    ddq_d := fun _ => D.val 0, tau_J_d := fun _ => D.val 0, theta := fun _ => D.val 0,
    dtheta := fun _ => D.val 0, tau_ext_hat_filtered := fun _ => D.val 0,
    joint_contact := fun _ => D.val 0, joint_collision := fun _ => D.val 0,
    m_ee := 0, m_load := 0, m_total := 0, I_ee := fun _ => 0, I_load := fun _ => 0,
    I_total := fun _ => 0, F_x_Cload := fun _ => 0, F_T_NE := fun _ => 0,
    NE_T_EE := fun _ => 0, EE_T_K := fun _ => 0, F_T_EE := fun _ => 0,
    O_T_EE := fun _ => D.val 0, control_command_success_rate := 0, time := 0 }

instance : Inhabited RobotState := ⟨RobotState.zero⟩

/-- Lookup of `joints_.at("<arm_id>_joint<i+1>")` followed by the pointer
dereference: `none` when the key is absent (`std::out_of_range`) or when
the stored pointer is null (undefined behaviour). -/
def lookupJ (m : JointMap) (armId : String) (i : Fin 7) : Option Joint :=
  match mapFind m (jointName armId (i.1 + 1)) with
  | some (some j) => some j
  | _ => none

/-- One joint of the URDF model, with the fields this component reads. -/
structure UrdfJoint where
  name : String
  utype : Nat
  axis : ℚ × ℚ × ℚ
  parentLink : String
  childLink : String
deriving DecidableEq

/-- The URDF model, as the collection of its joints. -/
abbrev Urdf := List UrdfJoint

/-- `urdf::Model::getJoint`. -/
def urdfGetJoint (u : Urdf) (n : String) : Option UrdfJoint :=
  u.find? (fun j => j.name == n)

/-- `transmission_interface::JointInfo`: joint name, role tag and the
declared hardware interfaces. -/
structure JointInfo where
  name : String
  role : String
  hardwareInterfaces : List String
deriving DecidableEq

/-- `transmission_interface::TransmissionInfo` (`ttype` is the `type_`
field). -/
structure TransmissionInfo where
  name : String
  ttype : String
  joints : List JointInfo
deriving DecidableEq

/-- Construction of the external `franka_gazebo::ModelKDL` from the root
and tip link names: `some e` models the `std::invalid_argument` it may
throw (malformed chain), `none` models success. -/
abbrev KdlBuild := String → String → Option String

/-- Error text thrown by `initFrankaStateHandle` on a wrong joint count. -/
def stateCountMsg (robot : String) (n : Nat) : String :=
  "Cannot create franka_hw/FrankaStateInterface for robot '" ++ robot ++
    "_robot' because " ++ toString n ++
    " joints were found beneath the <transmission> tag, but 7 are required."

/-- Error text thrown by `initFrankaStateHandle` on a joint missing from
the URDF. -/
def stateUrdfMsg (robot jn : String) : String :=
  "Cannot create franka_hw/FrankaStateInterface for robot '" ++ robot ++
    "_robot' because the specified joint '" ++ jn ++
    "' in the <transmission> tag cannot be found in the URDF"

/-- Error text thrown by `initFrankaModelHandle` on a wrong joint count. -/
def modelCountMsg (robot : String) (n : Nat) : String :=
  "Cannot create franka_hw/FrankaModelInterface for robot '" ++ robot ++
    "_model' because " ++ toString n ++
    " joints were found beneath the <transmission> tag, but 2 are required."

/-- Error text thrown by `initFrankaModelHandle` on a joint missing from
the URDF. -/
def modelUrdfMsg (robot jn : String) : String :=
  "Cannot create franka_hw/FrankaModelInterface for robot '" ++ robot ++
    "_model' because the specified joint '" ++ jn ++
    "' in the <transmission> tag cannot be found in the URDF"

/-- Error text thrown by `initFrankaModelHandle` when no joint carries the
role `root`. -/
def modelRootMsg (robot : String) : String :=
  "Cannot create franka_hw/FrankaModelInterface for robot '" ++ robot ++
    "_model' because no <joint> with <role>root</root> can be found " ++
    "in the <transmission>"

/-- Error text thrown by `initFrankaModelHandle` when no joint carries the
role `tip`. -/
def modelTipMsg (robot : String) : String :=
  "Cannot create franka_hw/FrankaModelInterface for robot '" ++ robot ++
    "_model' because no <joint> with <role>tip</role> can be found " ++
    "in the <transmission>"

/-- Error text rethrown by `initFrankaModelHandle` when the KDL model
construction fails. -/
def modelKdlMsg (robot e : String) : String :=
  "Cannot create franka_hw/FrankaModelInterface for robot '" ++ robot ++
    "_model'. " ++ e

/-- `FrankaHWSim::initFrankaStateHandle`: requires exactly 7 joints under
the transmission and each of them present in the URDF; `Except.error`
models the thrown `std::invalid_argument`. -/
def initFrankaStateHandle (robot : String) (urdf : Urdf) (t : TransmissionInfo) :
    Except String Unit :=
  if t.joints.length ≠ 7 then Except.error (stateCountMsg robot t.joints.length)
  else
    match t.joints.find? (fun j => (urdfGetJoint urdf j.name).isNone) with
    | some j => Except.error (stateUrdfMsg robot j.name)
    | none => Except.ok ()

/-- Loop body of `initFrankaModelHandle` over the transmission's joints:
per joint it checks URDF membership, then looks for the `root` and `tip`
roles among all joints, then builds the KDL model from the root joint's
parent link and the tip joint's child link.  The outer `Option` is
undefined behaviour: dereferencing `getJoint(...)` for a root/tip joint
absent from the URDF. -/
def modelLoop (robot : String) (urdf : Urdf) (kdl : KdlBuild) (t : TransmissionInfo) :
    List JointInfo → Option (Except String Unit)
  | [] => some (Except.ok ())
  | j :: rest =>
    if (urdfGetJoint urdf j.name).isNone then some (Except.error (modelUrdfMsg robot j.name))
    else
      match t.joints.find? (fun x => x.role == "root") with
      | none => some (Except.error (modelRootMsg robot))
      | some root =>
        match t.joints.find? (fun x => x.role == "tip") with
        | none => some (Except.error (modelTipMsg robot))
        | some tip =>
          match urdfGetJoint urdf root.name with
          | none => none
          | some rj =>
            match urdfGetJoint urdf tip.name with
            | none => none
            | some tj =>
              match kdl rj.parentLink tj.childLink with
              | some e => some (Except.error (modelKdlMsg robot e))
              | none => modelLoop robot urdf kdl t rest

/-- `FrankaHWSim::initFrankaModelHandle`: requires exactly 2 joints under
the transmission, then runs `modelLoop`. -/
def initFrankaModelHandle (robot : String) (urdf : Urdf) (kdl : KdlBuild)
    (t : TransmissionInfo) : Option (Except String Unit) :=
  if t.joints.length ≠ 2 then some (Except.error (modelCountMsg robot t.joints.length))
  else modelLoop robot urdf kdl t t.joints

/-- First loop of `FrankaHWSim::initSim`: build one `Joint` record per
`SimpleTransmission`.  `none` models a `return false` (no associated
joints, more than one joint, missing URDF, joint absent from the URDF or
from the Gazebo model); `gz` is the set of joint names the Gazebo parent
model owns. -/
def phase1 (urdf : Option Urdf) (gz : List String) :
    List TransmissionInfo → JointMap → Option JointMap
  | [], m => some m
  | t :: ts, m =>
    if t.ttype ≠ "transmission_interface/SimpleTransmission" then phase1 urdf gz ts m
    else
      match t.joints with
      | [] => none
      | _ :: _ :: _ => none
      | [ji] =>
        match urdf with
        | none => none
        | some u =>
          match urdfGetJoint u ji.name with
          | none => none
          | some uj =>
            if ji.name ∈ gz then
              phase1 urdf gz ts (mapEmplace m ji.name
                { (default : Joint) with name := ji.name, utype := uj.utype, axis := uj.axis })
            else none

/-- Inner loop of the second `initSim` pass, over
`transmission.joints_[0].hardware_interfaces_`.  The `joints_` map is
read through `operator[]`, which inserts a null pointer for an unknown
name.  Result: `none` = crash (null dereference in a log statement, or
`*urdf` on a null URDF pointer), `some none` = `return false` (a handle
initializer threw), `some (some m)` = all interfaces processed. -/
def procInterfaces (armId : String) (urdf : Option Urdf) (kdl : KdlBuild)
    (t : TransmissionInfo) (j0name : String) :
    List String → JointMap → Option (Option JointMap)
  | [], m => some (some m)
  | _k :: ks, m =>
    let br := mapBracket m j0name
    if t.ttype = "transmission_interface/SimpleTransmission" then
      match br.1 with
      | none => none
      | some _ => procInterfaces armId urdf kdl t j0name ks br.2
    else if t.ttype = "franka_hw/FrankaStateInterface" then
      match urdf with
      | none => none
      | some u =>
        match initFrankaStateHandle armId u t with
        | Except.error _ => some none
        | Except.ok _ => procInterfaces armId urdf kdl t j0name ks br.2
    else if t.ttype = "franka_hw/FrankaModelInterface" then
      match urdf with
      | none => none
      | some u =>
        match initFrankaModelHandle armId u kdl t with
        | none => none
        | some (Except.error _) => some none
        | some (Except.ok _) => procInterfaces armId urdf kdl t j0name ks br.2
    else
      match br.1 with
      | none => none
      | some _ => procInterfaces armId urdf kdl t j0name ks br.2

/-- Second loop of `FrankaHWSim::initSim` over all transmissions;
`transmission.joints_[0]` on an empty joint vector is undefined
behaviour (`none`). -/
def phase3 (armId : String) (urdf : Option Urdf) (kdl : KdlBuild) :
    List TransmissionInfo → JointMap → Option (Option JointMap)
  | [], m => some (some m)
  | t :: ts, m =>
    match t.joints with
    | [] => none
    | j0 :: _ =>
      match procInterfaces armId urdf kdl t j0.name j0.hardwareInterfaces m with
      | none => none
      | some none => some none
      | some (some m') => phase3 armId urdf kdl ts m'

/-- Modelled from the spec: `readArray<N>` (declared in the
`franka_gazebo` headers, not under `src/`): a flattened numeric parameter
must parse to the exact expected element count, otherwise the read fails
with an error naming the parameter.  The numeric tokenization itself is
external; `xs` is the token list. -/
def readArray (n : Nat) (xs : List ℚ) (pname : String) : Except String (Fin n → ℚ) :=
  if h : xs.length = n then Except.ok (fun i => xs.get (Fin.cast h.symm i))
  else Except.error ("Invalid parameter " ++ pname ++ ": expected " ++ toString n ++ " numbers")

/-- Parameter-server inputs of `FrankaHWSim::readParameters`, after the
external steps: `nh.param` default resolution, numeric tokenization of
the array strings, and `franka_hw::FrankaHW::getCollisionThresholds`
(repository code outside `src/`, modelled from the spec as the resolved
per-joint threshold lists). -/
structure Params where
  m_ee : ℚ
  I_ee : List ℚ
  m_load : ℚ
  I_load : List ℚ
  F_x_Cload : List ℚ
  F_T_NE : List ℚ
  NE_T_EE : List ℚ
  EE_T_K : List ℚ
  lowerTorqueThresholds : List ℚ
  upperTorqueThresholds : List ℚ

/-- The parsing part of the `readParameters` try-block: each array
parameter must have its exact element count. -/
def applyParams (p : Params) (s : RobotState) : Except String RobotState := do
  let iee ← readArray 9 p.I_ee "I_ee"
  let iload ← readArray 9 p.I_load "I_load"
  let fxc ← readArray 3 p.F_x_Cload "F_x_Cload"
  let ftne ← readArray 16 p.F_T_NE "F_T_NE"
  let nee ← readArray 16 p.NE_T_EE "NE_T_EE"
  let eek ← readArray 16 p.EE_T_K "EE_T_K"
  pure { s with m_ee := p.m_ee, I_ee := iee, m_load := p.m_load, I_load := iload,
                F_x_Cload := fxc, F_T_NE := ftne, NE_T_EE := nee, EE_T_K := eek }

/-- The per-joint threshold distribution loop of `readParameters`:
for `i = 0..6`, `joints_["<arm_id>_joint<i+1>"]->contact_threshold =
lower.at(i)` and likewise `collision_threshold = upper.at(i)`.
`some none` = `.at` threw (caught, `return false`); `none` = `operator[]`
produced a null pointer that was then dereferenced (crash). -/
def setThresholds (armId : String) (lower upper : List ℚ) :
    List ℕ → JointMap → Option (Option JointMap)
  | [], m => some (some m)
  | i :: is, m =>
    match lower.get? i with
    | none => some none
    | some lo =>
      match mapFind m (jointName armId (i + 1)) with
      | none => none
      | some none => none
      | some (some j) =>
        let m1 := mapSet m (jointName armId (i + 1)) (some { j with contact_threshold := lo })
        match upper.get? i with
        | none => some none
        | some hi =>
          setThresholds armId lower upper is
            (mapSet m1 (jointName armId (i + 1))
              (some { j with contact_threshold := lo, collision_threshold := hi }))

/-- `FrankaHWSim::readParameters`: parse the calibration parameters,
distribute the thresholds into the joint records, then derive
`m_total`, `F_T_EE` (column-major 4×4 product) and `I_total`
(parallel-axis shift), exactly as lines 266–324 of the source. -/
def readParameters (armId : String) (p : Params) (m : JointMap) (s0 : RobotState) :
    Option (Option (JointMap × RobotState)) :=
  match applyParams p s0 with
  | Except.error _ => some none
  | Except.ok s1 =>
    match setThresholds armId p.lowerTorqueThresholds p.upperTorqueThresholds
        [0, 1, 2, 3, 4, 5, 6] m with
    | none => none
    | some none => some none
    | some (some m') =>
      some (some (m', { s1 with
        m_total := s1.m_ee + s1.m_load,
        F_T_EE := flatten4 (colMajor4 s1.F_T_NE * colMajor4 s1.NE_T_EE),
        I_total := flatten3 (shiftInertiaTensor (colMajor3 s1.I_ee) s1.m_ee s1.F_x_Cload) }))

/-- `FrankaHWSim::initSim`: the two transmission passes followed by
`readParameters`.  `none` = crash / undefined behaviour, `some none` =
returned `false`, `some (some (m, s))` = returned `true` with the final
joint map and robot state. -/
def initSim (armId : String) (urdf : Option Urdf) (gz : List String)
    (ts : List TransmissionInfo) (kdl : KdlBuild) (p : Params) :
    Option (Option (JointMap × RobotState)) :=
  match phase1 urdf gz ts [] with
  | none => some none
  | some m =>
    match phase3 armId urdf kdl ts m with
    | none => none
    | some none => some none
    | some (some m2) => readParameters armId p m2 RobotState.zero

/-- `FrankaHWSim::updateRobotState` (the State Synthesizer): requires
exactly 7 joint records (the `assert`) and a record named
`"<arm_id>_joint1"` … `"<arm_id>_joint7"` (the `at` lookups); `none`
models the fatal abort in either failure.  `poseFn` stands for the
external `model_->pose(Frame::kEndEffector, ·)` query, evaluated on the
state after the per-joint fields were assigned.  `timeNs` is the ROS
time in nanoseconds; the stored time is in milliseconds. -/
def updateRobotState (armId : String) (m : JointMap) (timeNs : ℕ)
    (poseFn : RobotState → Fin 16 → D) (s : RobotState) : Option RobotState :=
  if h : m.length = 7 ∧ ∀ i : Fin 7, (lookupJ m armId i).isSome then
    let J : Fin 7 → Joint := fun i => (lookupJ m armId i).get (h.2 i)
    let s1 : RobotState :=
      { s with
        q := fun i => (J i).position
        dq := fun i => (J i).velocity
        tau_J := fun i => (J i).effort
        dtau_J := fun i => (J i).jerk
        q_d := fun i => (J i).position
        dq_d := fun i => (J i).velocity
        ddq_d := fun i => (J i).acceleration
        tau_J_d := fun i => (J i).command
        theta := fun i => (J i).position
        dtheta := fun i => (J i).velocity
        tau_ext_hat_filtered := fun i => D.sub (J i).effort (J i).command
        joint_contact := fun i => D.val (if (J i).isInContact then 1 else 0)
        joint_collision := fun i => D.val (if (J i).isInCollision then 1 else 0)
        control_command_success_rate := 1
        time := timeNs / 1000000 }
    some { s1 with O_T_EE := poseFn s1 }
  else none

/-- `FrankaHWSim::writeSim`: query the Dynamics Provider for the gravity
vector of the current robot state, then run the write loop. -/
def writeSim (armId : String) (gravity : RobotState → Fin 7 → D) (s : RobotState)
    (m : JointMap) : List WriteOutcome × Bool :=
  writeSimGo armId (gravity s) m

/-- Effect of one write outcome on the simulator's per-joint applied
force (`Joint::SetForce` for degree of freedom 0 overwrites the force). -/
def applyOutcome (f : String → D) : WriteOutcome → String → D
  | WriteOutcome.wrote n v => fun k => if k = n then v else f k
  | WriteOutcome.skippedNaN _ => f

/-- Fold a list of write outcomes over the simulator's force state. -/
def applyOutcomes (f : String → D) : List WriteOutcome → String → D
  | [] => f
  | o :: rest => applyOutcomes (applyOutcome f o) rest

/-- The last force written for a given joint name in a list of outcomes,
if any. -/
def lastWrite : List WriteOutcome → String → Option D
  | [], _ => none
  | WriteOutcome.wrote n v :: rest, k =>
    (lastWrite rest k).orElse (fun _ => if k = n then some v else none)
  | WriteOutcome.skippedNaN _ :: rest, k => lastWrite rest k

/-- One Command Writer invocation viewed as a transformer of the
simulator's force state; `writeSim` itself mutates none of the
component's own data. -/
def writeSimStep (armId : String) (gravity : RobotState → Fin 7 → D) (s : RobotState)
    (m : JointMap) (forces : String → D) : (String → D) × Bool :=
  ((applyOutcomes forces (writeSim armId gravity s m).1), (writeSim armId gravity s m).2)

/-- The Robot State invariant of spec §3: total mass is the sum of the
end-effector and load masses, `F_T_EE` is the (column-major) matrix
product `F_T_NE * NE_T_EE`, and `I_total` is `I_ee` shifted by the
parallel-axis theorem with `m_ee` and `F_x_Cload`. -/
def StateInv (s : RobotState) : Prop :=
  s.m_total = s.m_ee + s.m_load ∧
  colMajor4 s.F_T_EE = colMajor4 s.F_T_NE * colMajor4 s.NE_T_EE ∧
  colMajor3 s.I_total = shiftInertiaTensor (colMajor3 s.I_ee) s.m_ee s.F_x_Cload

/-- A joint-map entry the write loop handles without crashing and
without a NaN skip: non-null record, parseable name, numeric effective
command. -/
def goodEntry (armId : String) (g : Fin 7 → D) (p : String × Option Joint) : Bool :=
  match p.2 with
  | none => false
  | some j =>
    match effectiveCommand armId g p.1 j with
    | none => false
    | some c => !c.isNaN

/-- A joint-map entry the write loop handles without crashing (the
effective command may still be NaN). -/
def processableEntry (armId : String) (g : Fin 7 → D) (p : String × Option Joint) : Bool :=
  match p.2 with
  | none => false
  | some j => (effectiveCommand armId g p.1 j).isSome

/-- The outcome the write loop produces for a processable entry. -/
def expectedOutcome (armId : String) (g : Fin 7 → D) (p : String × Option Joint) :
    WriteOutcome :=
  match p.2 with
  | none => WriteOutcome.skippedNaN p.1
  | some j =>
    match effectiveCommand armId g p.1 j with
    | none => WriteOutcome.skippedNaN p.1
    | some c => if c.isNaN then WriteOutcome.skippedNaN p.1 else WriteOutcome.wrote p.1 c

/-- A message `part` occurs verbatim inside `msg`. -/
abbrev msgHas (msg part : String) : Prop := List.IsInfix part.data msg.data

/-- A URDF joint of the concrete test robot. -/
def pUJ (n pl cl : String) : UrdfJoint :=
  { name := n, utype := 1, axis := (0, 0, 1), parentLink := pl, childLink := cl }

/-- Concrete URDF: seven arm joints plus one finger joint. -/
def cfgUrdf : Urdf :=
  [pUJ "panda_joint1" "panda_link0" "panda_link1", pUJ "panda_joint2" "panda_link1" "panda_link2",
   pUJ "panda_joint3" "panda_link2" "panda_link3", pUJ "panda_joint4" "panda_link3" "panda_link4",
   pUJ "panda_joint5" "panda_link4" "panda_link5", pUJ "panda_joint6" "panda_link5" "panda_link6",
   pUJ "panda_joint7" "panda_link6" "panda_link7",
   pUJ "panda_finger_joint1" "panda_hand" "panda_leftfinger"]

/-- Joint names the concrete Gazebo model owns. -/
def cfgGz : List String :=
  ["panda_joint1", "panda_joint2", "panda_joint3", "panda_joint4", "panda_joint5",
   "panda_joint6", "panda_joint7", "panda_finger_joint1"]

/-- A transmission joint entry carrying the effort interface. -/
def effJI (n : String) : JointInfo :=
  { name := n, role := "", hardwareInterfaces := ["hardware_interface/EffortJointInterface"] }

/-- A single-joint `SimpleTransmission`. -/
def simpleT (tn jn : String) : TransmissionInfo :=
  { name := tn, ttype := "transmission_interface/SimpleTransmission", joints := [effJI jn] }

/-- A transmission joint entry carrying the state interface. -/
def stateJI (n : String) : JointInfo :=
  { name := n, role := "", hardwareInterfaces := ["franka_hw/FrankaStateInterface"] }

/-- The concrete `FrankaStateInterface` transmission over the 7 arm joints. -/
def cfgStateT : TransmissionInfo :=
  { name := "panda_fsi", ttype := "franka_hw/FrankaStateInterface",
    joints := [stateJI "panda_joint1", stateJI "panda_joint2", stateJI "panda_joint3",
               stateJI "panda_joint4", stateJI "panda_joint5", stateJI "panda_joint6",
               stateJI "panda_joint7"] }

/-- The concrete `FrankaModelInterface` transmission (root/tip pair). -/
def cfgModelT : TransmissionInfo :=
  { name := "panda_fmi", ttype := "franka_hw/FrankaModelInterface",
    joints := [{ name := "panda_joint1", role := "root",
                 hardwareInterfaces := ["franka_hw/FrankaModelInterface"] },
               { name := "panda_joint7", role := "tip",
                 hardwareInterfaces := ["franka_hw/FrankaModelInterface"] }] }

/-- Concrete transmission list with 8 `SimpleTransmission`s (7 arm joints
plus one finger joint) and the state and model interface transmissions:
every initialization check passes, yet 8 joint records are created. -/
def cfgTrans : List TransmissionInfo :=
  [simpleT "tr1" "panda_joint1", simpleT "tr2" "panda_joint2", simpleT "tr3" "panda_joint3",
   simpleT "tr4" "panda_joint4", simpleT "tr5" "panda_joint5", simpleT "tr6" "panda_joint6",
   simpleT "tr7" "panda_joint7", simpleT "tr8" "panda_finger_joint1", cfgStateT, cfgModelT]

/-- Concrete transmission list with only the 7 arm-joint transmissions. -/
def cfg7Trans : List TransmissionInfo :=
  [simpleT "tr1" "panda_joint1", simpleT "tr2" "panda_joint2", simpleT "tr3" "panda_joint3",
   simpleT "tr4" "panda_joint4", simpleT "tr5" "panda_joint5", simpleT "tr6" "panda_joint6",
   simpleT "tr7" "panda_joint7", cfgStateT, cfgModelT]

/-- Flattened 4×4 identity, as a parameter token list. -/
def id16 : List ℚ := [1, 0, 0, 0, 0, 1, 0, 0, 0, 0, 1, 0, 0, 0, 0, 1]

/-- Concrete parameter values (already tokenized), all of the expected
element counts. -/
def cfgParams : Params :=
  { m_ee := 1, I_ee := [1, 0, 0, 0, 1, 0, 0, 0, 1], m_load := 2,
    I_load := [0, 0, 0, 0, 0, 0, 0, 0, 0], F_x_Cload := [0, 0, 0],
    F_T_NE := id16, NE_T_EE := id16, EE_T_K := id16,
    lowerTorqueThresholds := [20, 20, 18, 18, 16, 14, 12],
    upperTorqueThresholds := [20, 20, 18, 18, 16, 14, 12] }

/-- Concrete KDL model construction that always succeeds. -/
def cfgKdl : KdlBuild := fun _ _ => none

/-- The concrete `initSim` run over `cfgTrans` (8 joint records). -/
def cfgInit : Option (Option (JointMap × RobotState)) :=
  initSim "panda" (some cfgUrdf) cfgGz cfgTrans cfgKdl cfgParams

/-- Joint map and robot state produced by the `cfgTrans` run. -/
def cfgPair : JointMap × RobotState :=
  (cfgInit.getD none).getD ([], RobotState.zero)

/-- The concrete `initSim` run over `cfg7Trans` (7 joint records). -/
def cfgInit7 : Option (Option (JointMap × RobotState)) :=
  initSim "panda" (some cfgUrdf) cfgGz cfg7Trans cfgKdl cfgParams

/-- Joint map and robot state produced by the `cfg7Trans` run. -/
def cfgPair7 : JointMap × RobotState :=
  (cfgInit7.getD none).getD ([], RobotState.zero)

/-- A concrete joint record: effort 5, command 3, thresholds 1 and 4. -/
def jW : Joint :=
  { (default : Joint) with
    name := "panda_joint", effort := D.val 5, command := D.val 3,
    contact_threshold := 1, collision_threshold := 4 }

/-- A concrete 7-record joint map named `panda_joint1` … `panda_joint7`. -/
def wMap : JointMap :=
  [("panda_joint1", some jW), ("panda_joint2", some jW), ("panda_joint3", some jW),
   ("panda_joint4", some jW), ("panda_joint5", some jW), ("panda_joint6", some jW),
   ("panda_joint7", some jW)]

/-- An 8-record joint map (one extra record beyond `wMap`). -/
def wMap8 : JointMap := ("panda_extra", some jW) :: wMap

/-- The concrete State Synthesizer run on `wMap`. -/
def wUpd : Option RobotState :=
  updateRobotState "panda" wMap 0 (fun _ _ => D.val 0) RobotState.zero

/-- A joint record carrying command 3. -/
def wjArm : Joint := { (default : Joint) with name := "panda_joint1", command := D.val 3 }

/-- A joint record carrying command 9 (for a non-arm joint). -/
def wjGrip : Joint := { (default : Joint) with name := "gripper", command := D.val 9 }

/-- A joint record carrying a NaN command. -/
def wjNan : Joint := { (default : Joint) with name := "panda_joint1", command := D.nan }

/-- Concrete write-loop map: one arm joint and one non-arm joint. -/
def wmC1 : JointMap := [("panda_joint1", some wjArm), ("gripper", some wjGrip)]

/-- Concrete write-loop map whose arm joint has a NaN command. -/
def wmC2 : JointMap := [("panda_joint1", some wjNan), ("gripper", some wjGrip)]

/-- A joint record carrying command 5 (for the suffix-parse runs). -/
def jTen : Joint := { (default : Joint) with name := "panda_joint2abc", command := D.val 5 }

/-- Concrete gravity vector `g[i] = i + 1`. -/
def gTen : Fin 7 → D := fun i => D.val ((i.1 : ℚ) + 1)

/-- A `SimpleTransmission` with two joints. -/
def c6t : TransmissionInfo :=
  { name := "tr", ttype := "transmission_interface/SimpleTransmission",
    joints := [effJI "panda_joint1", effJI "panda_joint2"] }

/-- A `FrankaStateInterface` transmission listing only 6 joints. -/
def c7t6 : TransmissionInfo :=
  { name := "t6", ttype := "franka_hw/FrankaStateInterface",
    joints := [stateJI "panda_joint1", stateJI "panda_joint2", stateJI "panda_joint3",
               stateJI "panda_joint4", stateJI "panda_joint5", stateJI "panda_joint6"] }

/-- A `FrankaModelInterface` transmission with no `root` or `tip` roles. -/
def c7NoRole : TransmissionInfo :=
  { name := "tm", ttype := "franka_hw/FrankaModelInterface",
    joints := [{ name := "panda_joint1", role := "",
                 hardwareInterfaces := ["franka_hw/FrankaModelInterface"] },
               { name := "panda_joint7", role := "",
                 hardwareInterfaces := ["franka_hw/FrankaModelInterface"] }] }

/-- A `FrankaModelInterface` transmission with a `root` but no `tip`. -/
def c7NoTip : TransmissionInfo :=
  { name := "tm2", ttype := "franka_hw/FrankaModelInterface",
    joints := [{ name := "panda_joint1", role := "root",
                 hardwareInterfaces := ["franka_hw/FrankaModelInterface"] },
               { name := "panda_joint7", role := "",
                 hardwareInterfaces := ["franka_hw/FrankaModelInterface"] }] }


/-! Helper lemmas. -/

theorem strData_append (s t : String) : (s ++ t).data = s.data ++ t.data := by
  cases s; cases t; rfl

theorem colMajor4_flatten4 (M : Matrix (Fin 4) (Fin 4) ℚ) : colMajor4 (flatten4 M) = M := by
  funext r c
  have hr := r.is_lt
  have hc := c.is_lt
  show M ⟨(c.1 * 4 + r.1) % 4, _⟩ ⟨(c.1 * 4 + r.1) / 4, _⟩ = M r c
  congr 1 <;> apply Fin.ext <;> simp <;> omega

theorem colMajor3_flatten3 (M : Matrix (Fin 3) (Fin 3) ℚ) : colMajor3 (flatten3 M) = M := by
  funext r c
  have hr := r.is_lt
  have hc := c.is_lt
  show M ⟨(c.1 * 3 + r.1) % 3, _⟩ ⟨(c.1 * 3 + r.1) / 3, _⟩ = M r c
  congr 1 <;> apply Fin.ext <;> simp <;> omega

theorem goodEntry_processable (armId : String) (g : Fin 7 → D) (p : String × Option Joint)
    (h : goodEntry armId g p = true) : processableEntry armId g p = true := by
  obtain ⟨name, jo⟩ := p
  match jo with
  | none => simp [goodEntry] at h
  | some j =>
    cases hec : effectiveCommand armId g name j with
    | none => simp [goodEntry, hec] at h
    | some c => simp [processableEntry, hec]

theorem writeSimGo_map (armId : String) (g : Fin 7 → D) (m : JointMap)
    (h : ∀ p ∈ m, processableEntry armId g p = true) :
    writeSimGo armId g m = (m.map (expectedOutcome armId g), true) := by
  induction m with
  | nil => rfl
  | cons p rest ih =>
    obtain ⟨name, jo⟩ := p
    have hp := h _ (List.mem_cons_self _ _)
    have ih' := ih (fun q hq => h q (List.mem_cons_of_mem _ hq))
    match hjo : jo with
    | none => simp [processableEntry] at hp
    | some j =>
      cases hec : effectiveCommand armId g name j with
      | none => simp [processableEntry, hec] at hp
      | some c =>
        by_cases hnan : c.isNaN
        · simp [writeSimGo, hec, hnan, expectedOutcome, ih']
        · simp [writeSimGo, hec, hnan, expectedOutcome, ih']

theorem applyOutcomes_getD (outs : List WriteOutcome) : ∀ (f : String → D) (k : String),
    applyOutcomes f outs k = (lastWrite outs k).getD (f k) := by
  induction outs with
  | nil => intro f k; rfl
  | cons o rest ih =>
    intro f k
    cases o with
    | wrote n v =>
      simp only [applyOutcomes, lastWrite, applyOutcome, ih]
      cases hlw : lastWrite rest k with
      | some w => simp [Option.orElse, hlw]
      | none =>
        by_cases hk : k = n
        · simp [Option.orElse, hlw, hk]
        · simp [Option.orElse, hlw, hk]
    | skippedNaN n => simp only [applyOutcomes, lastWrite, applyOutcome, ih]

theorem readParameters_inv (armId : String) (p : Params) (m m' : JointMap)
    (s0 s : RobotState)
    (h : readParameters armId p m s0 = some (some (m', s))) : StateInv s := by
  unfold readParameters at h
  cases hap : applyParams p s0 with
  | error e => rw [hap] at h; exact absurd h (by simp)
  | ok s1 =>
    rw [hap] at h
    cases hst : setThresholds armId p.lowerTorqueThresholds p.upperTorqueThresholds
        [0, 1, 2, 3, 4, 5, 6] m with
    | none => rw [hst] at h; exact absurd h (by simp)
    | some o =>
      rw [hst] at h
      cases o with
      | none => exact absurd h (by simp)
      | some m2 =>
        simp only [Option.some.injEq, Prod.mk.injEq] at h
        obtain ⟨hm, hs⟩ := h
        subst hs
        refine ⟨rfl, ?_, ?_⟩
        · show colMajor4 (flatten4 (colMajor4 s1.F_T_NE * colMajor4 s1.NE_T_EE)) = _
          rw [colMajor4_flatten4]
        · show colMajor3 (flatten3
              (shiftInertiaTensor (colMajor3 s1.I_ee) s1.m_ee s1.F_x_Cload)) = _
          rw [colMajor3_flatten3]

theorem updateRobotState_preserves (armId : String) (m : JointMap) (timeNs : ℕ)
    (poseFn : RobotState → Fin 16 → D) (s s' : RobotState)
    (h : updateRobotState armId m timeNs poseFn s = some s') (hs : StateInv s) :
    StateInv s' := by
  unfold updateRobotState at h
  split at h
  · injection h with h
    subst h
    exact hs
  · exact absurd h (by simp)

theorem initSim_readParameters (armId : String) (urdf : Option Urdf) (gz : List String)
    (ts : List TransmissionInfo) (kdl : KdlBuild) (p : Params) (m : JointMap)
    (s : RobotState) (h : initSim armId urdf gz ts kdl p = some (some (m, s))) :
    ∃ m2, readParameters armId p m2 RobotState.zero = some (some (m, s)) := by
  unfold initSim at h
  cases h1 : phase1 urdf gz ts [] with
  | none => simp only [h1] at h; exact absurd h (by simp)
  | some m0 =>
    simp only [h1] at h
    cases h3 : phase3 armId urdf kdl ts m0 with
    | none => simp only [h3] at h; exact absurd h (by simp)
    | some o =>
      simp only [h3] at h
      cases o with
      | none => simp at h
      | some m2 => exact ⟨m2, h⟩

theorem phase1_multi_none (urdf : Option Urdf) (gz : List String) (t : TransmissionInfo)
    (ht : t.ttype = "transmission_interface/SimpleTransmission")
    (hlen : 1 < t.joints.length) :
    ∀ (ts : List TransmissionInfo) (m : JointMap), t ∈ ts → phase1 urdf gz ts m = none := by
  intro ts
  induction ts with
  | nil => intro m hmem; exact absurd hmem (List.not_mem_nil t)
  | cons t0 rest ih =>
    intro m hmem
    rcases List.mem_cons.mp hmem with rfl | hmem'
    · unfold phase1
      rw [if_neg (by simp [ht])]
      split
      · rfl
      · rfl
      · rename_i ji heq
        rw [heq] at hlen
        simp at hlen
    · unfold phase1
      split
      · exact ih _ hmem'
      · split
        · rfl
        · rfl
        · split
          · rfl
          · split
            · rfl
            · split
              · exact ih _ hmem'
              · rfl

theorem msgHas_appendL (a b part : String) (h : msgHas b part) : msgHas (a ++ b) part := by
  obtain ⟨s, t, hst⟩ := h
  exact ⟨a.data ++ s, t, by rw [strData_append, ← hst]; simp [List.append_assoc]⟩

theorem msgHas_appendR (a b part : String) (h : msgHas a part) : msgHas (a ++ b) part := by
  obtain ⟨s, t, hst⟩ := h
  exact ⟨s, t ++ b.data, by rw [strData_append, ← hst]; simp [List.append_assoc]⟩

theorem stateCountMsg_has7 (robot : String) (n : Nat) :
    msgHas (stateCountMsg robot n) "7 are required" :=
  msgHas_appendL _ _ _ (by decide)

theorem modelRootMsg_hasRoot (robot : String) : msgHas (modelRootMsg robot) "root" :=
  msgHas_appendR _ _ _ (msgHas_appendL _ _ _ (by decide))

theorem modelTipMsg_hasTip (robot : String) : msgHas (modelTipMsg robot) "tip" :=
  msgHas_appendR _ _ _ (msgHas_appendL _ _ _ (by decide))

theorem stateHandle_count (robot : String) (urdf : Urdf) (t : TransmissionInfo)
    (h : t.joints.length ≠ 7) :
    initFrankaStateHandle robot urdf t = Except.error (stateCountMsg robot t.joints.length) := by
  unfold initFrankaStateHandle
  rw [if_pos h]

theorem modelHandle_noRoot (robot : String) (urdf : Urdf) (kdl : KdlBuild)
    (t : TransmissionInfo) (h : ∀ x ∈ t.joints, ¬(x.role = "root")) :
    ∃ msg, initFrankaModelHandle robot urdf kdl t = some (Except.error msg) := by
  have hfind : t.joints.find? (fun x => x.role == "root") = none :=
    List.find?_eq_none.mpr (fun x hx => by simp [h x hx])
  unfold initFrankaModelHandle
  split
  · exact ⟨_, rfl⟩
  · rename_i hlen2
    have h2 : t.joints.length = 2 := not_not.mp hlen2
    match hj : t.joints with
    | [] => rw [hj] at h2; simp at h2
    | a :: rest =>
      unfold modelLoop
      split
      · exact ⟨_, rfl⟩
      · rw [hfind]
        exact ⟨_, rfl⟩

theorem modelHandle_noTip (robot : String) (urdf : Urdf) (kdl : KdlBuild)
    (t : TransmissionInfo) (h : ∀ x ∈ t.joints, ¬(x.role = "tip")) :
    ∃ msg, initFrankaModelHandle robot urdf kdl t = some (Except.error msg) := by
  have hfind : t.joints.find? (fun x => x.role == "tip") = none :=
    List.find?_eq_none.mpr (fun x hx => by simp [h x hx])
  unfold initFrankaModelHandle
  split
  · exact ⟨_, rfl⟩
  · rename_i hlen2
    have h2 : t.joints.length = 2 := not_not.mp hlen2
    match hj : t.joints with
    | [] => rw [hj] at h2; simp at h2
    | a :: rest =>
      unfold modelLoop
      split
      · exact ⟨_, rfl⟩
      · cases hroot : t.joints.find? (fun x => x.role == "root") with
        | none => exact ⟨_, rfl⟩
        | some r =>
          rw [hfind]
          exact ⟨_, rfl⟩

theorem modelHandle_rootMsg (robot : String) (urdf : Urdf) (kdl : KdlBuild)
    (t : TransmissionInfo) (h2 : t.joints.length = 2)
    (hin : ∀ x ∈ t.joints, (urdfGetJoint urdf x.name).isSome = true)
    (h : ∀ x ∈ t.joints, ¬(x.role = "root")) :
    initFrankaModelHandle robot urdf kdl t = some (Except.error (modelRootMsg robot)) := by
  have hfind : t.joints.find? (fun x => x.role == "root") = none :=
    List.find?_eq_none.mpr (fun x hx => by simp [h x hx])
  unfold initFrankaModelHandle
  rw [if_neg (by omega)]
  match hj : t.joints with
  | [] => rw [hj] at h2; simp at h2
  | a :: rest =>
    have ha : (urdfGetJoint urdf a.name).isSome = true :=
      hin a (by rw [hj]; exact List.mem_cons_self _ _)
    unfold modelLoop
    rw [if_neg (fun hc => by
      rw [Option.isNone_iff_eq_none] at hc
      rw [hc] at ha
      simp at ha)]
    simp only [hfind]

theorem modelHandle_tipMsg (robot : String) (urdf : Urdf) (kdl : KdlBuild)
    (t : TransmissionInfo) (h2 : t.joints.length = 2)
    (hin : ∀ x ∈ t.joints, (urdfGetJoint urdf x.name).isSome = true)
    (hr : ∃ x ∈ t.joints, x.role = "root")
    (h : ∀ x ∈ t.joints, ¬(x.role = "tip")) :
    initFrankaModelHandle robot urdf kdl t = some (Except.error (modelTipMsg robot)) := by
  have hfind : t.joints.find? (fun x => x.role == "tip") = none :=
    List.find?_eq_none.mpr (fun x hx => by simp [h x hx])
  unfold initFrankaModelHandle
  rw [if_neg (by omega)]
  match hj : t.joints with
  | [] => rw [hj] at h2; simp at h2
  | a :: rest =>
    have ha : (urdfGetJoint urdf a.name).isSome = true :=
      hin a (by rw [hj]; exact List.mem_cons_self _ _)
    unfold modelLoop
    rw [if_neg (fun hc => by
      rw [Option.isNone_iff_eq_none] at hc
      rw [hc] at ha
      simp at ha)]
    cases hroot : t.joints.find? (fun x => x.role == "root") with
    | none =>
      obtain ⟨x, hx, hxr⟩ := hr
      have := List.find?_eq_none.mp hroot x hx
      simp [hxr] at this
    | some r =>
      simp only [hroot, hfind]

theorem procInterfaces_state_fail (armId : String) (urdf : Option Urdf) (kdl : KdlBuild)
    (t : TransmissionInfo) (j0name : String)
    (ht : t.ttype = "franka_hw/FrankaStateInterface")
    (hfail : ∀ u : Urdf, ∃ e, initFrankaStateHandle armId u t = Except.error e) :
    ∀ (ks : List String) (m : JointMap), ks ≠ [] →
      ∀ m', procInterfaces armId urdf kdl t j0name ks m ≠ some (some m') := by
  intro ks m hks m'
  match ks with
  | [] => exact absurd rfl hks
  | k :: ks' =>
    unfold procInterfaces
    rw [if_neg (by rw [ht]; intro hcon; exact absurd hcon (by decide))]
    rw [if_pos ht]
    cases urdf with
    | none => simp
    | some u =>
      obtain ⟨e, he⟩ := hfail u
      simp [he]

theorem procInterfaces_model_fail (armId : String) (urdf : Option Urdf) (kdl : KdlBuild)
    (t : TransmissionInfo) (j0name : String)
    (ht : t.ttype = "franka_hw/FrankaModelInterface")
    (hfail : ∀ u : Urdf, ∃ e, initFrankaModelHandle armId u kdl t = some (Except.error e)) :
    ∀ (ks : List String) (m : JointMap), ks ≠ [] →
      ∀ m', procInterfaces armId urdf kdl t j0name ks m ≠ some (some m') := by
  intro ks m hks m'
  match ks with
  | [] => exact absurd rfl hks
  | k :: ks' =>
    unfold procInterfaces
    rw [if_neg (by rw [ht]; intro hcon; exact absurd hcon (by decide))]
    rw [if_neg (by rw [ht]; intro hcon; exact absurd hcon (by decide))]
    rw [if_pos ht]
    cases urdf with
    | none => simp
    | some u =>
      obtain ⟨e, he⟩ := hfail u
      simp [he]

theorem phase3_fail (armId : String) (urdf : Option Urdf) (kdl : KdlBuild)
    (t : TransmissionInfo)
    (hproc : ∀ (j0name : String) (ks : List String) (m : JointMap), ks ≠ [] →
      ∀ m', procInterfaces armId urdf kdl t j0name ks m ≠ some (some m'))
    (hif : ∀ j0 rest, t.joints = j0 :: rest → j0.hardwareInterfaces ≠ []) :
    ∀ (ts : List TransmissionInfo) (m : JointMap), t ∈ ts →
      ∀ m', phase3 armId urdf kdl ts m ≠ some (some m') := by
  intro ts
  induction ts with
  | nil => intro m hmem; exact absurd hmem (List.not_mem_nil t)
  | cons t0 rest ih =>
    intro m hmem m'
    rcases List.mem_cons.mp hmem with rfl | hmem'
    · unfold phase3
      split
      · simp
      · rename_i j0 rest2 hj
        cases hpr : procInterfaces armId urdf kdl t j0.name j0.hardwareInterfaces m with
        | none => simp
        | some o =>
          cases o with
          | none => simp
          | some m2 => exact absurd hpr (hproc j0.name _ m (hif j0 rest2 hj) m2)
    · unfold phase3
      split
      · simp
      · rename_i j0 rest2 hj
        cases hpr : procInterfaces armId urdf kdl t0 j0.name j0.hardwareInterfaces m with
        | none => simp
        | some o =>
          cases o with
          | none => simp
          | some m2 => exact ih m2 hmem' m'

theorem initSim_not_success_of_phase3 (armId : String) (urdf : Option Urdf)
    (gz : List String) (ts : List TransmissionInfo) (kdl : KdlBuild) (p : Params)
    (hph : ∀ (m : JointMap) (m' : JointMap), phase3 armId urdf kdl ts m ≠ some (some m')) :
    ∀ (m : JointMap) (s : RobotState), initSim armId urdf gz ts kdl p ≠ some (some (m, s)) := by
  intro m s
  unfold initSim
  cases h1 : phase1 urdf gz ts [] with
  | none => simp
  | some m0 =>
    cases h3 : phase3 armId urdf kdl ts m0 with
    | none => simp [h3]
    | some o =>
      cases o with
      | none => simp [h3]
      | some m2 => exact absurd h3 (hph m0 m2)

/-! Claim theorems. -/

/-- C1: for every joint record whose name starts with `"<arm_id>_joint"`,
the Command Writer applies the force `commanded_effort + gravity[i]`,
where `i` is the trailing joint number minus one and `gravity` is the
7-element vector obtained from the Dynamics Provider for the current
robot state; every joint whose name does not start with that prefix is
written with its raw commanded effort, uncompensated.  The hypotheses
restrict to the writer's normal operating regime stated elsewhere in the
contract: non-null records, parseable arm-joint suffixes, and no NaN
effective command (the NaN path is claim C2). -/
theorem C1_gravity_compensated_write (armId : String) (gravity : RobotState → Fin 7 → D)
    (s : RobotState) (m : JointMap)
    (hgood : ∀ p ∈ m, goodEntry armId (gravity s) p = true) :
    (writeSim armId gravity s m).2 = true ∧
    (writeSim armId gravity s m).1.length = m.length ∧
    (∀ (k : ℕ) (name : String) (j : Joint), m[k]? = some (name, some j) →
      (strStartsWith name (armId ++ "_joint") = false →
        (writeSim armId gravity s m).1[k]? = some (WriteOutcome.wrote name j.command)) ∧
      (strStartsWith name (armId ++ "_joint") = true →
        ∀ n : ℤ, cppStoi (strDrop name (armId ++ "_joint").length) = some n →
        ∀ hn : 0 ≤ n - 1 ∧ n - 1 < 7,
        (writeSim armId gravity s m).1[k]? =
          some (WriteOutcome.wrote name
            (D.add j.command (gravity s ⟨(n - 1).toNat, by omega⟩))))) := by
  have hw : writeSim armId gravity s m = (m.map (expectedOutcome armId (gravity s)), true) :=
    writeSimGo_map armId (gravity s) m
      (fun p hp => goodEntry_processable _ _ _ (hgood p hp))
  refine ⟨by rw [hw], by rw [hw]; simp, ?_⟩
  intro k name j hk
  have hmem : (name, some j) ∈ m := List.getElem?_mem hk
  have hout : (writeSim armId gravity s m).1[k]? =
      some (expectedOutcome armId (gravity s) (name, some j)) := by
    rw [hw]
    simp only [List.getElem?_map, hk, Option.map_some']
  have hg := hgood _ hmem
  constructor
  · intro hns
    rw [hout]
    simp [goodEntry, effectiveCommand, hns] at hg
    simp [expectedOutcome, effectiveCommand, hns, hg]
  · intro hpos n hn hbound
    rw [hout]
    have hec : effectiveCommand armId (gravity s) name j =
        some (D.add j.command (gravity s ⟨(n - 1).toNat, by omega⟩)) := by
      simp only [effectiveCommand, hpos, hn, if_true]
      rw [dif_pos hbound]
    simp only [goodEntry, hec, Bool.not_eq_true'] at hg
    simp only [expectedOutcome, hec, hg, Bool.false_eq_true, if_false]

/-- Witness for C1: a two-joint map (`panda_joint1` with command 3 and
gravity 2, plus a non-matching joint `gripper` with command 9) run
through the Command Writer. -/
theorem C1_gravity_compensated_write_witness :
    (writeSim "panda" (fun _ _ => D.val 2) RobotState.zero wmC1).1[0]? =
      some (WriteOutcome.wrote "panda_joint1" (D.add (D.val 3) (D.val 2))) ∧
    (writeSim "panda" (fun _ _ => D.val 2) RobotState.zero wmC1).1[1]? =
      some (WriteOutcome.wrote "gripper" (D.val 9)) := by
  have h := C1_gravity_compensated_write "panda" (fun _ _ => D.val 2) RobotState.zero wmC1
    (by decide)
  constructor
  · exact (h.2.2 0 "panda_joint1" wjArm rfl).2 (by decide) 1 (by decide) (by decide)
  · exact (h.2.2 1 "gripper" wjGrip rfl).1 (by decide)

/-- C2: if the effective command for a joint is NaN in a write cycle,
no force write is made to that joint's actuator (the outcome is the
NaN-warning skip, which carries the emitted diagnostic), and all
remaining joints are still processed and written normally (the loop
completes and every other joint receives its own outcome). -/
theorem C2_nan_skip_and_continue (armId : String) (gravity : RobotState → Fin 7 → D)
    (s : RobotState) (m : JointMap)
    (hproc : ∀ p ∈ m, processableEntry armId (gravity s) p = true) :
    (writeSim armId gravity s m).2 = true ∧
    (writeSim armId gravity s m).1.length = m.length ∧
    (∀ (k : ℕ) (name : String) (j : Joint) (c : D), m[k]? = some (name, some j) →
      effectiveCommand armId (gravity s) name j = some c →
      (c.isNaN = true →
        (writeSim armId gravity s m).1[k]? = some (WriteOutcome.skippedNaN name)) ∧
      (c.isNaN = false →
        (writeSim armId gravity s m).1[k]? = some (WriteOutcome.wrote name c))) := by
  have hw : writeSim armId gravity s m = (m.map (expectedOutcome armId (gravity s)), true) :=
    writeSimGo_map armId (gravity s) m hproc
  refine ⟨by rw [hw], by rw [hw]; simp, ?_⟩
  intro k name j c hk hec
  have hout : (writeSim armId gravity s m).1[k]? =
      some (expectedOutcome armId (gravity s) (name, some j)) := by
    rw [hw]
    simp only [List.getElem?_map, hk, Option.map_some']
  constructor
  · intro hnan
    rw [hout]
    simp only [expectedOutcome, hec, hnan, if_true]
  · intro hnum
    rw [hout]
    simp only [expectedOutcome, hec, hnum, Bool.false_eq_true, if_false]

/-- Witness for C2: `panda_joint1` has a NaN command (its effective
command is NaN), so it is skipped with the warning, while the later
joint `gripper` is written normally and the loop completes. -/
theorem C2_nan_skip_and_continue_witness :
    (writeSim "panda" (fun _ _ => D.val 2) RobotState.zero wmC2).2 = true ∧
    (writeSim "panda" (fun _ _ => D.val 2) RobotState.zero wmC2).1[0]? =
      some (WriteOutcome.skippedNaN "panda_joint1") ∧
    (writeSim "panda" (fun _ _ => D.val 2) RobotState.zero wmC2).1[1]? =
      some (WriteOutcome.wrote "gripper" (D.val 9)) := by
  have h := C2_nan_skip_and_continue "panda" (fun _ _ => D.val 2) RobotState.zero wmC2
    (by decide)
  refine ⟨h.1, ?_, ?_⟩
  · exact (h.2.2 0 "panda_joint1" wjNan (D.add wjNan.command (D.val 2)) rfl rfl).1 (by decide)
  · exact (h.2.2 1 "gripper" wjGrip wjGrip.command rfl rfl).2 (by decide)

/-- C3: after a successful initialization (`initSim` returned true) the
robot state satisfies `m_total = m_ee + m_load`,
`F_T_EE = F_T_NE * NE_T_EE` (4×4 matrix product, `NE_T_EE` on the
right) and `I_total = shiftInertiaTensor I_ee m_ee F_x_Cload`
(parallel-axis shift); and every State Synthesizer cycle preserves this
invariant, so it holds after every cycle of a run started from a
successful initialization. -/
theorem C3_robot_state_invariant :
    (∀ (armId : String) (urdf : Option Urdf) (gz : List String)
        (ts : List TransmissionInfo) (kdl : KdlBuild) (p : Params) (m : JointMap)
        (s : RobotState),
      initSim armId urdf gz ts kdl p = some (some (m, s)) → StateInv s) ∧
    (∀ (armId : String) (m : JointMap) (timeNs : ℕ) (poseFn : RobotState → Fin 16 → D)
        (s s' : RobotState),
      updateRobotState armId m timeNs poseFn s = some s' → StateInv s → StateInv s') := by
  constructor
  · intro armId urdf gz ts kdl p m s h
    obtain ⟨m2, h2⟩ := initSim_readParameters armId urdf gz ts kdl p m s h
    exact readParameters_inv armId p m2 m RobotState.zero s h2
  · exact updateRobotState_preserves

/-- Witness for C3: the concrete 7-joint configuration initializes
successfully, its state satisfies the invariant, and one State
Synthesizer cycle on the resulting joint map preserves it. -/
theorem C3_robot_state_invariant_witness :
    cfgInit7.isSome = true ∧
    (cfgInit7.getD none).isSome = true ∧
    StateInv cfgPair7.2 ∧
    (updateRobotState "panda" cfgPair7.1 5 (fun _ _ => D.val 0) cfgPair7.2).isSome = true ∧
    StateInv ((updateRobotState "panda" cfgPair7.1 5 (fun _ _ => D.val 0) cfgPair7.2).getD
      RobotState.zero) := by
  have h1 : cfgInit7.isSome = true := by decide
  have h2 : (cfgInit7.getD none).isSome = true := by decide
  have h4 : (updateRobotState "panda" cfgPair7.1 5 (fun _ _ => D.val 0)
      cfgPair7.2).isSome = true := by decide
  rcases hE : cfgInit7 with _ | o
  · rw [hE] at h1; simp at h1
  rcases o with _ | p0
  · rw [hE] at h2; simp at h2
  rcases p0 with ⟨m, s⟩
  have hInv : StateInv s :=
    C3_robot_state_invariant.1 "panda" (some cfgUrdf) cfgGz cfg7Trans cfgKdl cfgParams m s hE
  have hpair : cfgPair7 = (m, s) := by
    unfold cfgPair7
    rw [hE]
    rfl
  rcases hU : updateRobotState "panda" m 5 (fun _ _ => D.val 0) s with _ | s'
  · rw [hpair] at h4
    rw [hU] at h4
    simp at h4
  refine ⟨h1, h2, ?_, h4, ?_⟩
  · rw [hpair]
    exact hInv
  · rw [hpair, hU]
    simp only [Option.getD_some]
    exact C3_robot_state_invariant.2 "panda" m 5 (fun _ _ => D.val 0) s s' hU hInv

/-- C4: after a State Synthesizer cycle, `joint_contact[i]` is 1.0 iff
`|effort − command|` exceeds the joint's stored contact threshold (else
0.0), and `joint_collision[i]` is 1.0 iff it exceeds the stored
collision threshold (else 0.0) — a pure function of the current effort,
current command and stored thresholds. -/
theorem C4_contact_collision_flags (armId : String) (m : JointMap) (timeNs : ℕ)
    (poseFn : RobotState → Fin 16 → D) (s s' : RobotState)
    (h : updateRobotState armId m timeNs poseFn s = some s') :
    ∀ (i : Fin 7) (j : Joint), lookupJ m armId i = some j →
      (s'.joint_contact i = D.val 1 ↔
        (D.abs (D.sub j.effort j.command)).gtQ j.contact_threshold = true) ∧
      (s'.joint_contact i = D.val 0 ↔
        (D.abs (D.sub j.effort j.command)).gtQ j.contact_threshold = false) ∧
      (s'.joint_collision i = D.val 1 ↔
        (D.abs (D.sub j.effort j.command)).gtQ j.collision_threshold = true) ∧
      (s'.joint_collision i = D.val 0 ↔
        (D.abs (D.sub j.effort j.command)).gtQ j.collision_threshold = false) := by
  intro i j hij
  unfold updateRobotState at h
  split at h
  · rename_i hcond
    injection h with h
    subst h
    simp only []
    simp only [Option.get_of_mem (hcond.2 i) hij]
    unfold Joint.isInContact Joint.isInCollision
    constructor
    · cases hgt : (D.abs (D.sub j.effort j.command)).gtQ j.contact_threshold <;> simp [hgt]
    constructor
    · cases hgt : (D.abs (D.sub j.effort j.command)).gtQ j.contact_threshold <;> simp [hgt]
    constructor
    · cases hgt : (D.abs (D.sub j.effort j.command)).gtQ j.collision_threshold <;> simp [hgt]
    · cases hgt : (D.abs (D.sub j.effort j.command)).gtQ j.collision_threshold <;> simp [hgt]
  · exact absurd h (by simp)

/-- Witness for C4: the synthesizer cycle on the concrete 7-joint map
succeeds, and joint 0's contact and collision flags satisfy the stated
equivalences with the stored thresholds of its record (effort 5,
command 3, thresholds 1 and 4). -/
theorem C4_contact_collision_flags_witness :
    wUpd.isSome = true ∧
    (((wUpd.getD RobotState.zero).joint_contact ⟨0, by omega⟩ = D.val 1 ↔
      (D.abs (D.sub jW.effort jW.command)).gtQ jW.contact_threshold = true) ∧
     ((wUpd.getD RobotState.zero).joint_collision ⟨0, by omega⟩ = D.val 0 ↔
      (D.abs (D.sub jW.effort jW.command)).gtQ jW.collision_threshold = false)) := by
  have h1 : wUpd.isSome = true := by decide
  rcases hU : wUpd with _ | s'
  · rw [hU] at h1; simp at h1
  have h := C4_contact_collision_flags "panda" wMap 0 (fun _ _ => D.val 0)
    RobotState.zero s' hU ⟨0, by omega⟩ jW (by decide)
  refine ⟨h1, ?_, ?_⟩
  · simp only [Option.getD_some]
    exact h.1
  · simp only [Option.getD_some]
    exact h.2.2.2

/-- C5: after a State Synthesizer cycle, `tau_ext_hat_filtered[i]`
equals exactly `effort − last command` for joint `i` — no low-pass
filtering is applied despite the field name. -/
theorem C5_tau_ext_unfiltered (armId : String) (m : JointMap) (timeNs : ℕ)
    (poseFn : RobotState → Fin 16 → D) (s s' : RobotState)
    (h : updateRobotState armId m timeNs poseFn s = some s') :
    ∀ (i : Fin 7) (j : Joint), lookupJ m armId i = some j →
      s'.tau_ext_hat_filtered i = D.sub j.effort j.command := by
  intro i j hij
  unfold updateRobotState at h
  split at h
  · rename_i hcond
    injection h with h
    subst h
    simp only []
    rw [Option.get_of_mem (hcond.2 i) hij]
  · exact absurd h (by simp)

/-- Witness for C5: on the concrete 7-joint map, joint 2's external
torque estimate is exactly its effort minus its command. -/
theorem C5_tau_ext_unfiltered_witness :
    wUpd.isSome = true ∧
    (wUpd.getD RobotState.zero).tau_ext_hat_filtered ⟨2, by omega⟩ =
      D.sub jW.effort jW.command := by
  have h1 : wUpd.isSome = true := by decide
  rcases hU : wUpd with _ | s'
  · rw [hU] at h1; simp at h1
  refine ⟨h1, ?_⟩
  simp only [Option.getD_some]
  exact C5_tau_ext_unfiltered "panda" wMap 0 (fun _ _ => D.val 0) RobotState.zero s' hU
    ⟨2, by omega⟩ jW (by decide)

/-- Counterexample to C6: appending the two-joint `SimpleTransmission`
`c6t` to a configuration that is otherwise fully valid makes `initSim`
log the warning and `return false` (result `some none`) instead of
skipping the entry and returning success.  The second conjunct shows
the surrounding configuration alone initializes successfully, so every
required interface would have been populated had the entry merely been
skipped — the claim's escape clause (failure allowed only when a
required interface is left unpopulated) does not apply at this input. -/
theorem C6_multi_joint_counterexample :
    initSim "panda" (some cfgUrdf) cfgGz (cfgTrans ++ [c6t]) cfgKdl cfgParams = some none ∧
    ((initSim "panda" (some cfgUrdf) cfgGz cfgTrans cfgKdl cfgParams).getD none).isSome
      = true :=
  ⟨rfl, by decide⟩

/-- C6 (amended): an initialization input containing a
`SimpleTransmission` with more than one joint logs a warning and makes
`initSim` abort, returning failure (`false`), regardless of the other
transmissions — even when they would populate every required
interface. -/
theorem C6_multi_joint_aborts (armId : String) (urdf : Option Urdf) (gz : List String)
    (ts : List TransmissionInfo) (kdl : KdlBuild) (p : Params) (t : TransmissionInfo)
    (hmem : t ∈ ts) (ht : t.ttype = "transmission_interface/SimpleTransmission")
    (hlen : 1 < t.joints.length) :
    initSim armId urdf gz ts kdl p = some none := by
  unfold initSim
  rw [phase1_multi_none urdf gz t ht hlen ts [] hmem]

/-- Witness for C6 (amended): the two-joint transmission `c6t` aborts
the concrete initialization built from the full valid configuration. -/
theorem C6_multi_joint_aborts_witness :
    initSim "panda" (some cfgUrdf) cfgGz (cfgTrans ++ [c6t]) cfgKdl cfgParams = some none :=
  C6_multi_joint_aborts "panda" (some cfgUrdf) cfgGz (cfgTrans ++ [c6t]) cfgKdl cfgParams
    c6t (by decide) (by decide) (by decide)

/-- Counterexample to C8's unreachability part: with 8 single-joint
`SimpleTransmission`s (7 arm joints plus a finger joint), a valid
7-joint `FrankaStateInterface` transmission and a valid model
transmission, `initSim` succeeds, yet 8 joint records exist and the
State Synthesizer's `assert(joints_.size() == 7)` fires (fatal abort,
modelled as `none`): the assertion is reachable after successful
initialization. -/
theorem C8_assert_reachable_counterexample :
    cfgInit.isSome = true ∧
    (cfgInit.getD none).isSome = true ∧
    cfgPair.1.length = 8 ∧
    updateRobotState "panda" cfgPair.1 0 (fun _ _ => D.val 0) cfgPair.2 = none := by
  refine ⟨by decide, by decide, by decide, ?_⟩
  have hl : cfgPair.1.length = 8 := by decide
  unfold updateRobotState
  rw [dif_neg]
  rintro ⟨h7, -⟩
  rw [hl] at h7
  exact absurd h7 (by decide)

/-- C8 (amended): the State Synthesizer fails fatally whenever the
number of joint records is not exactly 7; but initialization validation
does not make this branch unreachable, because the 7-joint check
constrains only the `FrankaStateInterface` transmission's joint list
while joint records are created one per `SimpleTransmission` (see the
counterexample). -/
theorem C8_joint_count_fatal (armId : String) (m : JointMap) (timeNs : ℕ)
    (poseFn : RobotState → Fin 16 → D) (s : RobotState) (h : m.length ≠ 7) :
    updateRobotState armId m timeNs poseFn s = none := by
  unfold updateRobotState
  rw [dif_neg]
  rintro ⟨h7, -⟩
  exact h h7

/-- Witness for C8 (amended): the synthesizer aborts on a concrete
8-record joint map. -/
theorem C8_joint_count_fatal_witness :
    updateRobotState "panda" wMap8 0 (fun _ _ => D.val 0) RobotState.zero = none :=
  C8_joint_count_fatal "panda" wMap8 0 (fun _ _ => D.val 0) RobotState.zero (by decide)

/-- C9: the Command Writer is a deterministic function of the robot
state, the joint records and the Dynamics Provider, and it mutates none
of them; running it twice in the same cycle with unchanged inputs
computes the same outcomes and leaves the simulator's applied forces as
after the first run. -/
theorem C9_write_idempotent (armId : String) (gravity : RobotState → Fin 7 → D)
    (s : RobotState) (m : JointMap) (forces : String → D) :
    (writeSimStep armId gravity s m (writeSimStep armId gravity s m forces).1).1 =
      (writeSimStep armId gravity s m forces).1 ∧
    (writeSimStep armId gravity s m (writeSimStep armId gravity s m forces).1).2 =
      (writeSimStep armId gravity s m forces).2 := by
  refine ⟨?_, rfl⟩
  show applyOutcomes (applyOutcomes forces (writeSim armId gravity s m).1)
      (writeSim armId gravity s m).1 = applyOutcomes forces (writeSim armId gravity s m).1
  funext k
  rw [applyOutcomes_getD, applyOutcomes_getD]
  cases hlw : lastWrite (writeSim armId gravity s m).1 k with
  | none => simp [applyOutcomes_getD, hlw]
  | some v => simp

/-- Counterexample to C10: the joint `panda_joint2abc` matches the
prefix and its suffix `"2abc"` is not an integer in 1..7, yet neither
the parse nor the gravity lookup fails: `std::stoi` prefix-parses `2`,
and the joint is written (with compensation `g[1]`), the loop
completing normally — so the write is total on an input the claim says
must fail. -/
theorem C10_suffix_counterexample :
    cppStoi "2abc" = some 2 ∧
    writeSimGo "panda" gTen [("panda_joint2abc", some jTen)] =
      ([WriteOutcome.wrote "panda_joint2abc" (D.add jTen.command (gTen ⟨1, by omega⟩))],
        true) := by
  exact ⟨rfl, rfl⟩

/-- C10 (amended): for a prefix-matching joint name, the write fails
(uncaught `std::invalid_argument` or `std::out_of_range`, aborting the
loop with no write of the raw command) exactly when the suffix has no
parsable leading integer or its parsed value minus one falls outside
0..6; a suffix whose leading integer parses into 1..7 — including
non-numeric remainders such as `"2abc"` — is written with compensation
for that index.  Totality of the per-cycle write therefore requires
every prefix-matching suffix to parse to a leading integer in 1..7. -/
theorem C10_suffix_parse_semantics (armId : String) (g : Fin 7 → D) (name : String)
    (j : Joint) (hpfx : strStartsWith name (armId ++ "_joint") = true) :
    (cppStoi (strDrop name (armId ++ "_joint").length) = none →
      effectiveCommand armId g name j = none) ∧
    (∀ n : ℤ, cppStoi (strDrop name (armId ++ "_joint").length) = some n →
      (n - 1 < 0 ∨ 7 ≤ n - 1) → effectiveCommand armId g name j = none) ∧
    (∀ n : ℤ, cppStoi (strDrop name (armId ++ "_joint").length) = some n →
      ∀ (h0 : 0 ≤ n - 1) (h7 : n - 1 < 7),
      effectiveCommand armId g name j =
        some (D.add j.command (g ⟨(n - 1).toNat, by omega⟩))) ∧
    (∀ rest : JointMap, effectiveCommand armId g name j = none →
      writeSimGo armId g ((name, some j) :: rest) = ([], false)) := by
  refine ⟨?_, ?_, ?_, ?_⟩
  · intro hn
    simp only [effectiveCommand, hpfx, if_true, hn]
  · intro n hn hout
    simp only [effectiveCommand, hpfx, if_true, hn]
    rw [dif_neg]
    omega
  · intro n hn h0 h7
    simp only [effectiveCommand, hpfx, if_true, hn]
    rw [dif_pos ⟨h0, h7⟩]
  · intro rest hec
    simp only [writeSimGo, hec]

/-- Witness for C10 (amended): `panda_joint8` parses to 8, the gravity
lookup index 7 is out of range, and the write loop aborts with no
write. -/
theorem C10_suffix_parse_semantics_witness :
    effectiveCommand "panda" gTen "panda_joint8" jTen = none ∧
    writeSimGo "panda" gTen [("panda_joint8", some jTen)] = ([], false) := by
  have h := C10_suffix_parse_semantics "panda" gTen "panda_joint8" jTen (by decide)
  have hec : effectiveCommand "panda" gTen "panda_joint8" jTen = none :=
    h.2.1 8 (by decide) (by omega)
  exact ⟨hec, h.2.2.2 [] hec⟩

/-- C7: initialization fails whenever the model-interface transmission
lacks a joint with role `root` or role `tip` — with an error message
naming the missing role when the transmission passes the earlier joint
count and URDF checks — and whenever the state-interface transmission
lists a joint count other than 7, with an error message stating that 7
are required; in both cases the thrown error is caught by `initSim`,
which then does not return success (the component is not activated).
The propagation parts assume the failing transmission is actually
processed: its first joint declares at least one hardware interface. -/
theorem C7_init_validation_errors :
    (∀ (robot : String) (urdf : Urdf) (t : TransmissionInfo), t.joints.length ≠ 7 →
      initFrankaStateHandle robot urdf t =
        Except.error (stateCountMsg robot t.joints.length) ∧
      msgHas (stateCountMsg robot t.joints.length) "7 are required") ∧
    (∀ (robot : String) (urdf : Urdf) (kdl : KdlBuild) (t : TransmissionInfo),
      (∀ x ∈ t.joints, ¬(x.role = "root")) →
      ∃ msg, initFrankaModelHandle robot urdf kdl t = some (Except.error msg)) ∧
    (∀ (robot : String) (urdf : Urdf) (kdl : KdlBuild) (t : TransmissionInfo),
      (∀ x ∈ t.joints, ¬(x.role = "tip")) →
      ∃ msg, initFrankaModelHandle robot urdf kdl t = some (Except.error msg)) ∧
    (∀ (robot : String) (urdf : Urdf) (kdl : KdlBuild) (t : TransmissionInfo),
      t.joints.length = 2 → (∀ x ∈ t.joints, (urdfGetJoint urdf x.name).isSome = true) →
      (∀ x ∈ t.joints, ¬(x.role = "root")) →
      initFrankaModelHandle robot urdf kdl t = some (Except.error (modelRootMsg robot)) ∧
      msgHas (modelRootMsg robot) "root") ∧
    (∀ (robot : String) (urdf : Urdf) (kdl : KdlBuild) (t : TransmissionInfo),
      t.joints.length = 2 → (∀ x ∈ t.joints, (urdfGetJoint urdf x.name).isSome = true) →
      (∃ x ∈ t.joints, x.role = "root") → (∀ x ∈ t.joints, ¬(x.role = "tip")) →
      initFrankaModelHandle robot urdf kdl t = some (Except.error (modelTipMsg robot)) ∧
      msgHas (modelTipMsg robot) "tip") ∧
    (∀ (armId : String) (urdf : Option Urdf) (gz : List String)
        (ts : List TransmissionInfo) (kdl : KdlBuild) (p : Params)
        (t : TransmissionInfo), t ∈ ts →
      t.ttype = "franka_hw/FrankaStateInterface" → t.joints.length ≠ 7 →
      (∀ j0 rest, t.joints = j0 :: rest → j0.hardwareInterfaces ≠ []) →
      ∀ (m : JointMap) (s : RobotState),
        initSim armId urdf gz ts kdl p ≠ some (some (m, s))) ∧
    (∀ (armId : String) (urdf : Option Urdf) (gz : List String)
        (ts : List TransmissionInfo) (kdl : KdlBuild) (p : Params)
        (t : TransmissionInfo), t ∈ ts →
      t.ttype = "franka_hw/FrankaModelInterface" →
      ((∀ x ∈ t.joints, ¬(x.role = "root")) ∨ (∀ x ∈ t.joints, ¬(x.role = "tip"))) →
      (∀ j0 rest, t.joints = j0 :: rest → j0.hardwareInterfaces ≠ []) →
      ∀ (m : JointMap) (s : RobotState),
        initSim armId urdf gz ts kdl p ≠ some (some (m, s))) := by
  refine ⟨?_, ?_, ?_, ?_, ?_, ?_, ?_⟩
  · intro robot urdf t h
    exact ⟨stateHandle_count robot urdf t h, stateCountMsg_has7 robot t.joints.length⟩
  · exact modelHandle_noRoot
  · exact modelHandle_noTip
  · intro robot urdf kdl t h2 hin h
    exact ⟨modelHandle_rootMsg robot urdf kdl t h2 hin h, modelRootMsg_hasRoot robot⟩
  · intro robot urdf kdl t h2 hin hr h
    exact ⟨modelHandle_tipMsg robot urdf kdl t h2 hin hr h, modelTipMsg_hasTip robot⟩
  · intro armId urdf gz ts kdl p t hmem ht h7 hif m s
    exact initSim_not_success_of_phase3 armId urdf gz ts kdl p
      (fun m0 m' => phase3_fail armId urdf kdl t
        (fun j0name ks mm hks mm' =>
          procInterfaces_state_fail armId urdf kdl t j0name ht
            (fun u => ⟨_, stateHandle_count armId u t h7⟩) ks mm hks mm')
        hif ts m0 hmem m') m s
  · intro armId urdf gz ts kdl p t hmem ht hrt hif m s
    have hfail : ∀ u : Urdf, ∃ e, initFrankaModelHandle armId u kdl t =
        some (Except.error e) := by
      intro u
      rcases hrt with h | h
      · exact modelHandle_noRoot armId u kdl t h
      · exact modelHandle_noTip armId u kdl t h
    exact initSim_not_success_of_phase3 armId urdf gz ts kdl p
      (fun m0 m' => phase3_fail armId urdf kdl t
        (fun j0name ks mm hks mm' =>
          procInterfaces_model_fail armId urdf kdl t j0name ht hfail ks mm hks mm')
        hif ts m0 hmem m') m s

/-- Witness for C7: a 6-joint state transmission produces the count
error naming 7; a role-less model transmission produces the `root`
error; a tip-less one the `tip` error; and concrete `initSim` runs over
each failing transmission do not succeed. -/
theorem C7_init_validation_errors_witness :
    (initFrankaStateHandle "panda" cfgUrdf c7t6 =
      Except.error (stateCountMsg "panda" 6) ∧
     msgHas (stateCountMsg "panda" 6) "7 are required") ∧
    initFrankaModelHandle "panda" cfgUrdf cfgKdl c7NoRole =
      some (Except.error (modelRootMsg "panda")) ∧
    initFrankaModelHandle "panda" cfgUrdf cfgKdl c7NoTip =
      some (Except.error (modelTipMsg "panda")) ∧
    initSim "panda" (some cfgUrdf) cfgGz [c7t6] cfgKdl cfgParams ≠
      some (some ([], RobotState.zero)) ∧
    initSim "panda" (some cfgUrdf) cfgGz [c7NoRole] cfgKdl cfgParams ≠
      some (some ([], RobotState.zero)) := by
  have h := C7_init_validation_errors
  refine ⟨h.1 "panda" cfgUrdf c7t6 (by decide), ?_, ?_, ?_, ?_⟩
  · exact (h.2.2.2.1 "panda" cfgUrdf cfgKdl c7NoRole (by decide) (by decide) (by decide)).1
  · exact (h.2.2.2.2.1 "panda" cfgUrdf cfgKdl c7NoTip (by decide) (by decide)
      (by decide) (by decide)).1
  · exact h.2.2.2.2.2.1 "panda" (some cfgUrdf) cfgGz [c7t6] cfgKdl cfgParams c7t6
      (by decide) (by decide) (by decide)
      (by intro j0 rest heq; injection heq with hj0 hr; subst hj0; decide)
      [] RobotState.zero
  · exact h.2.2.2.2.2.2 "panda" (some cfgUrdf) cfgGz [c7NoRole] cfgKdl cfgParams c7NoRole
      (by decide) (by decide) (Or.inl (by decide))
      (by intro j0 rest heq; injection heq with hj0 hr; subst hj0; decide)
      [] RobotState.zero
